import Mathlib

/-!
Shallow embedding of the fixed-precision path tracker of
`src/core/include/bertini2/tracking/fixed_precision_tracker.hpp`
(class `FixedPrecisionTracker`), and of the expression-tree
differentiation routines of
`src/core/src/function_tree/operators/arithmetic.cpp`
(`SumOperator::Differentiate`, `MultOperator::Differentiate`,
`IntegerPowerOperator::Differentiate`).

The C++ tracker is a template, generic over a commensurate pair of a real
type `RT` and a complex type `CT`; the embedding is likewise generic over a
linearly ordered field `R` for the reals and an arbitrary type `C` for the
complex values, together with the arithmetic operations the tracker uses on
`C` (packaged in `NumericOps`).  The external `Predict` and `Correct`
routines live outside this repository and are consumed as black boxes, so
the embedding takes them as oracle functions returning a status code and
the space point they wrote into their output argument.
-/

/-- Status codes returned by every tracker stage, mirroring the C++
`SuccessCode` enumeration (a closed set; the members used by this file's
control flow are `Success` and `GoingToInfinity`, the rest are
representative failure and cancellation codes). -/
inductive SuccessCode where
| Success
| HigherPrecisionNecessary
| GoingToInfinity
| FailedToConverge
| MatrixSolveFailure
| MaxNumStepsTaken
| MinStepSizeReached
| Failure
| SingularStartPoint
deriving DecidableEq

/-- The arithmetic the tracker template uses on the complex type `C`,
producing reals in `R`: `abs`, subtraction and addition.  In the C++ these
come from the numeric library of the instantiating type. -/
structure NumericOps (C R : Type) where
  cabs : C → R
  csub : C → C → C
  cadd : C → C → C

/-- The stepping configuration (`stepping_config_`), read-only to the core. -/
structure SteppingConfig (R : Type) where
  initial_step_size : R
  min_step_size : R
  step_size_fail_factor : R
  step_size_success_factor : R
  min_num_steps : Nat
  max_num_steps : Nat

/-- The configuration fields of the tracker object that the embedded
operations read: the stepping configuration, the reinitialize-step-size
policy flag and the conditioning-estimation frequency. -/
structure TrackerConfig (R : Type) where
  stepping : SteppingConfig R
  reinitialize_stepsize : Bool
  frequency_of_CN_estimation : Nat

/-- The mutable tracker state: current/delta time, the two step sizes, the
three space vectors and the counters
(`num_successful_steps_taken_`, `num_successful_steps_since_stepsize_increase_`,
`num_steps_since_last_condition_number_computation_`, and the failed-step
counter kept by the base class). -/
structure TrackerState (C R : Type) where
  current_time : C
  delta_t : C
  current_stepsize : R
  next_stepsize : R
  current_space : List C
  temporary_space : List C
  tentative_space : List C
  num_successful_steps_taken : Nat
  num_successful_steps_since_stepsize_increase : Nat
  num_steps_since_last_condition_number_computation : Nat
  num_failed_steps_taken : Nat
deriving DecidableEq

/-- Modelled from the spec: the base-class `SetStepSize`, which the spec's
`UpdateStepsize` description pins down as committing the given value as the
new `current_step_size` (the base tracker header is not part of this
excerpt). -/
def SetStepSize {C R : Type} (st : TrackerState C R) (s : R) : TrackerState C R :=
  { st with current_stepsize := s }

/-- `FixedPrecisionTracker::UpdateStepsize`: commit `next_stepsize_` as the
current step size and report `Success`. -/
def UpdateStepsize {C R : Type} (st : TrackerState C R) :
    SuccessCode × TrackerState C R :=
  (SuccessCode.Success, SetStepSize st st.next_stepsize)

/-- Modelled from the spec: the base-class `ResetCounters`, which per the
spec resets all counters to zero (the base tracker header is not part of
this excerpt). -/
def BaseResetCounters {C R : Type} (st : TrackerState C R) : TrackerState C R :=
  { st with
    num_successful_steps_taken := 0
    num_successful_steps_since_stepsize_increase := 0
    num_steps_since_last_condition_number_computation := 0
    num_failed_steps_taken := 0 }

/-- `FixedPrecisionTracker::ResetCounters`: run the base reset, then zero
the success streak and set the conditioning counter to the estimation
frequency so the first iteration recomputes the condition number. -/
def ResetCounters {C R : Type} (cfg : TrackerConfig R) (st : TrackerState C R) :
    TrackerState C R :=
  { BaseResetCounters st with
    num_successful_steps_since_stepsize_increase := 0
    num_steps_since_last_condition_number_computation := cfg.frequency_of_CN_estimation }

/-- `FixedPrecisionTracker::TrackerLoopInitialization`: store the start
time as the current time, optionally reinitialize the step size to
`min(initial_step_size, |start_time - end_time| / min_num_steps)`, reset
the counters and return `Success`.  (The body never writes `start_point`
into `current_space_`, faithfully to the source.) -/
def TrackerLoopInitialization {C R : Type} [LinearOrderedField R]
    (cfg : TrackerConfig R) (ops : NumericOps C R) (st : TrackerState C R)
    (start_time end_time : C) (start_point : List C) :
    SuccessCode × TrackerState C R :=
  let _ := start_point
  let st1 : TrackerState C R := { st with current_time := start_time }
  let st2 : TrackerState C R :=
    if cfg.reinitialize_stepsize then
      SetStepSize st1
        (min cfg.stepping.initial_step_size
          (ops.cabs (ops.csub start_time end_time) / (cfg.stepping.min_num_steps : R)))
    else st1
  (SuccessCode.Success, ResetCounters cfg st2)

/-- `FixedPrecisionTracker::PreIterationCheck`: `MaxNumStepsTaken` when the
successful-step count has reached the configured maximum, else
`MinStepSizeReached` when the current step size is below the configured
minimum, else `Success`.  It reads the state and mutates nothing, which the
embedding reflects by returning only a code. -/
def PreIterationCheck {C R : Type} [LinearOrderedField R]
    (cfg : TrackerConfig R) (st : TrackerState C R) : SuccessCode :=
  if st.num_successful_steps_taken ≥ cfg.stepping.max_num_steps then
    SuccessCode.MaxNumStepsTaken
  else if st.current_stepsize < cfg.stepping.min_step_size then
    SuccessCode.MinStepSizeReached
  else
    SuccessCode.Success

/-- `FixedPrecisionTracker::TrackerIteration`: predict, then correct.
`Pr` and `Co` are the external `Predict` and `Correct` wrappers (black
boxes outside this excerpt), each returning the status code and the space
vector they wrote into their output argument.  On predictor failure the
next step size is set to `step_size_fail_factor * current_stepsize_`,
committed by `UpdateStepsize`, and the predictor's code is returned.  On
corrector `GoingToInfinity` the code is returned with no further action.
On any other corrector failure the step size is shrunk and committed the
same way and the corrector's code returned.  On success the tentative
space is copied into the current space and `Success` is returned. -/
def TrackerIteration {C R : Type} [LinearOrderedField R]
    (cfg : TrackerConfig R) (ops : NumericOps C R)
    (Pr : List C → C → C → SuccessCode × List C)
    (Co : List C → C → SuccessCode × List C)
    (st : TrackerState C R) : SuccessCode × TrackerState C R :=
  let pr := Pr st.current_space st.current_time st.delta_t
  let st1 : TrackerState C R := { st with temporary_space := pr.2 }
  if pr.1 ≠ SuccessCode.Success then
    let st2 : TrackerState C R :=
      { st1 with next_stepsize := cfg.stepping.step_size_fail_factor * st1.current_stepsize }
    (pr.1, (UpdateStepsize st2).2)
  else
    let tentative_next_time := ops.cadd st.current_time st.delta_t
    let co := Co st1.temporary_space tentative_next_time
    let st2 : TrackerState C R := { st1 with tentative_space := co.2 }
    if co.1 = SuccessCode.GoingToInfinity then
      (co.1, st2)
    else if co.1 ≠ SuccessCode.Success then
      let st3 : TrackerState C R :=
        { st2 with next_stepsize := cfg.stepping.step_size_fail_factor * st2.current_stepsize }
      (co.1, (UpdateStepsize st3).2)
    else
      (SuccessCode.Success, { st2 with current_space := st2.tentative_space })

/-- Modelled from the spec: the base-class `IncrementCountersFail`, which
per the spec records the failure while leaving the total successful-step
count untouched (the base tracker header is not part of this excerpt). -/
def BaseIncrementCountersFail {C R : Type} (st : TrackerState C R) : TrackerState C R :=
  { st with num_failed_steps_taken := st.num_failed_steps_taken + 1 }

/-- `FixedPrecisionTracker::IncrementCountersFail`: run the base failure
bookkeeping, then zero the success streak counter. -/
def IncrementCountersFail {C R : Type} (st : TrackerState C R) : TrackerState C R :=
  { BaseIncrementCountersFail st with num_successful_steps_since_stepsize_increase := 0 }

/-- The states reachable from a starting state `s0` by the tracker's own
operations: initialization (with arbitrary start/end times and start
point), a full predictor-corrector iteration, and a bare step-size commit.
An initialization performed while the reinitialize-step-size policy is
active is recorded together with the distance `|start_time - end_time|`
being positive. -/
inductive Reachable {C R : Type} [LinearOrderedField R]
    (cfg : TrackerConfig R) (ops : NumericOps C R)
    (Pr : List C → C → C → SuccessCode × List C)
    (Co : List C → C → SuccessCode × List C)
    (s0 : TrackerState C R) : TrackerState C R → Prop where
| start : Reachable cfg ops Pr Co s0 s0
| initCall (s : TrackerState C R) (t0 t1 : C) (pt : List C) :
    Reachable cfg ops Pr Co s0 s →
    (cfg.reinitialize_stepsize = true → 0 < ops.cabs (ops.csub t0 t1)) →
    Reachable cfg ops Pr Co s0 (TrackerLoopInitialization cfg ops s t0 t1 pt).2
| iterCall (s : TrackerState C R) :
    Reachable cfg ops Pr Co s0 s →
    Reachable cfg ops Pr Co s0 (TrackerIteration cfg ops Pr Co s).2
| updateCall (s : TrackerState C R) :
    Reachable cfg ops Pr Co s0 s →
    Reachable cfg ops Pr Co s0 (UpdateStepsize s).2

/-- The rational instantiation of the numeric operations, used to evaluate
the tracker on concrete inputs (the template admits any commensurate
real/complex pair). -/
def ratOps : NumericOps ℚ ℚ :=
  { cabs := fun q => |q|, csub := fun a b => a - b, cadd := fun a b => a + b }

/-!
Expression-tree nodes from `arithmetic.cpp`.  The node class hierarchy is
open in the C++ (variables, differentials and other symbol classes live
outside this excerpt); the `Leaf` constructor stands for any such external
node, carrying the node its virtual `Differentiate` returns.  `Number`
carries its constant value (rationals standing in for `double`); `Sum`
pairs each child with its sign (`true` for `+`), `Mult` pairs each child
with its multiply-or-divide flag (`true` for multiply), matching the
parallel `children_` / `children_sign_` / `children_mult_or_div_` vectors. -/
inductive Node where
| Number (v : ℚ)
| Leaf (id : Nat) (deriv : Node)
| Sum (children : List (Node × Bool))
| Mult (children : List (Node × Bool))
| IntPow (child : Node) (exponent : ℤ)

/-- The `dynamic_pointer_cast<Number>` test: whether a node is a `Number`. -/
def Node.isNumberNode : Node → Bool
| Node.Number _ => true
| _ => false

/-- The combined cast-then-`Eval<dbl>() == dbl(q)` test the differentiation
code applies to a derivative: the node is a `Number` whose value is `q`. -/
def Node.numberEq : Node → ℚ → Bool
| Node.Number v, q => v == q
| _, _ => false

mutual

/-- `Node::Differentiate` across the classes of `arithmetic.cpp`: constants
differentiate to zero, an external leaf returns its stored derivative,
`SumOperator` and `MultOperator` delegate to their term loops, and
`IntegerPowerOperator` applies the power rule with its special cases for
exponents 0, 1 and 2. -/
def Differentiate : Node → Node
| Node.Number _ => Node.Number 0
| Node.Leaf _ d => d
| Node.Sum cs =>
    let ts := SumOperatorTerms cs
    if ts.isEmpty then Node.Number 0 else Node.Sum ts
| Node.Mult cs => Node.Sum (MultOperatorTerms cs 0 cs)
| Node.IntPow c e =>
    if e = 0 then Node.Number 0
    else if e = 1 then Differentiate c
    else if e = 2 then Node.Mult [(Node.Number 2, true), (c, true), (Differentiate c, true)]
    else Node.Mult [(Node.Number (e : ℚ), true), (Node.IntPow c (e - 1), true),
                    (Differentiate c, true)]

/-- The loop body of `SumOperator::Differentiate`: skip children that are
`Number`s, differentiate the rest, skip derivatives that are the constant
zero, and keep each remaining derivative with its child's sign. -/
def SumOperatorTerms : List (Node × Bool) → List (Node × Bool)
| [] => []
| (c, sign) :: rest =>
    if c.isNumberNode then SumOperatorTerms rest
    else
      let t := Differentiate c
      if t.numberEq 0 then SumOperatorTerms rest
      else (t, sign) :: SumOperatorTerms rest

/-- The loop body of `MultOperator::Differentiate` over the suffix of the
children starting at index `ii` of the full child list `full`: each child's
derivative is taken; a constant-zero derivative skips the child; the term
for child `ii` starts from all other children with their flags
(`full.eraseIdx ii`); a constant-one derivative then abandons the child
via `continue`; a divide-flagged child yields the quotient-rule term (the
child twice more as divide children plus the derivative) added with a
subtraction sign, and a multiply-flagged child yields the product-rule term
added with an addition sign. -/
def MultOperatorTerms (full : List (Node × Bool)) : Nat → List (Node × Bool) → List (Node × Bool)
| _, [] => []
| ii, (c, flag) :: rest =>
    let ld := Differentiate c
    if ld.numberEq 0 then MultOperatorTerms full (ii + 1) rest
    else
      let term_ii := full.eraseIdx ii
      if ld.numberEq 1 then MultOperatorTerms full (ii + 1) rest
      else if flag = false then
        (Node.Mult (term_ii ++ [(c, false), (c, false), (ld, true)]), false)
          :: MultOperatorTerms full (ii + 1) rest
      else
        (Node.Mult (term_ii ++ [(ld, true)]), true)
          :: MultOperatorTerms full (ii + 1) rest

end

/-!  Concrete instantiation used to exercise the tracker on explicit inputs. -/

/-- A concrete tracker configuration over the rationals: initial step 1,
minimum step 1/1000, fail factor 1/2, success factor 2, at least 1 and at
most 100 steps, reinitialize-step-size policy active, conditioning
estimated every 5 steps. -/
def cfgA : TrackerConfig ℚ :=
  { stepping :=
      { initial_step_size := 1, min_step_size := 1/1000, step_size_fail_factor := 1/2,
        step_size_success_factor := 2, min_num_steps := 1, max_num_steps := 100 }
    reinitialize_stepsize := true
    frequency_of_CN_estimation := 5 }

/-- A concrete mid-tracking state over the rationals with unit step sizes,
empty space vectors and nonzero counters. -/
def stA : TrackerState ℚ ℚ :=
  { current_time := 0, delta_t := 0, current_stepsize := 1, next_stepsize := 1,
    current_space := [], temporary_space := [], tentative_space := [],
    num_successful_steps_taken := 3, num_successful_steps_since_stepsize_increase := 2,
    num_steps_since_last_condition_number_computation := 7, num_failed_steps_taken := 1 }

/-- Claim C1: when both the predictor and the corrector return `Success`,
`TrackerIteration` returns `Success` and commits `current_space` to the
corrected tentative point, so afterwards `current_space` equals the
accepted `tentative_space`. -/
theorem trackerIteration_success_commits_space {C R : Type} [LinearOrderedField R]
    (cfg : TrackerConfig R) (ops : NumericOps C R)
    (Pr : List C → C → C → SuccessCode × List C)
    (Co : List C → C → SuccessCode × List C)
    (st : TrackerState C R)
    (hp : (Pr st.current_space st.current_time st.delta_t).1 = SuccessCode.Success)
    (hc : (Co (Pr st.current_space st.current_time st.delta_t).2
            (ops.cadd st.current_time st.delta_t)).1 = SuccessCode.Success) :
    (TrackerIteration cfg ops Pr Co st).1 = SuccessCode.Success ∧
    (TrackerIteration cfg ops Pr Co st).2.current_space =
      (Co (Pr st.current_space st.current_time st.delta_t).2
        (ops.cadd st.current_time st.delta_t)).2 ∧
    (TrackerIteration cfg ops Pr Co st).2.current_space =
      (TrackerIteration cfg ops Pr Co st).2.tentative_space := by
  simp [TrackerIteration, hp, hc]

/-- Witness for claim C1: a concrete successful iteration, taking the
corrector's point `[3]` into the current space. -/
theorem trackerIteration_success_commits_space_witness :
    (TrackerIteration cfgA ratOps (fun _ _ _ => (SuccessCode.Success, [2]))
      (fun _ _ => (SuccessCode.Success, [3])) stA).1 = SuccessCode.Success ∧
    (TrackerIteration cfgA ratOps (fun _ _ _ => (SuccessCode.Success, [2]))
      (fun _ _ => (SuccessCode.Success, [3])) stA).2.current_space = [3] ∧
    (TrackerIteration cfgA ratOps (fun _ _ _ => (SuccessCode.Success, [2]))
      (fun _ _ => (SuccessCode.Success, [3])) stA).2.current_space =
    (TrackerIteration cfgA ratOps (fun _ _ _ => (SuccessCode.Success, [2]))
      (fun _ _ => (SuccessCode.Success, [3])) stA).2.tentative_space :=
  ⟨(trackerIteration_success_commits_space cfgA ratOps _ _ stA rfl rfl).1,
   (trackerIteration_success_commits_space cfgA ratOps _ _ stA rfl rfl).2.1,
   (trackerIteration_success_commits_space cfgA ratOps _ _ stA rfl rfl).2.2⟩

/-- Claim C2: when the corrector returns `GoingToInfinity`,
`TrackerIteration` returns that code immediately, with both step sizes and
the current space unchanged. -/
theorem trackerIteration_going_to_infinity_propagates {C R : Type} [LinearOrderedField R]
    (cfg : TrackerConfig R) (ops : NumericOps C R)
    (Pr : List C → C → C → SuccessCode × List C)
    (Co : List C → C → SuccessCode × List C)
    (st : TrackerState C R)
    (hp : (Pr st.current_space st.current_time st.delta_t).1 = SuccessCode.Success)
    (hc : (Co (Pr st.current_space st.current_time st.delta_t).2
            (ops.cadd st.current_time st.delta_t)).1 = SuccessCode.GoingToInfinity) :
    (TrackerIteration cfg ops Pr Co st).1 = SuccessCode.GoingToInfinity ∧
    (TrackerIteration cfg ops Pr Co st).2.next_stepsize = st.next_stepsize ∧
    (TrackerIteration cfg ops Pr Co st).2.current_stepsize = st.current_stepsize ∧
    (TrackerIteration cfg ops Pr Co st).2.current_space = st.current_space := by
  simp [TrackerIteration, hp, hc]

/-- Witness for claim C2: a concrete iteration whose corrector diverges to
infinity, leaving step sizes and current space untouched. -/
theorem trackerIteration_going_to_infinity_propagates_witness :
    (TrackerIteration cfgA ratOps (fun _ _ _ => (SuccessCode.Success, [2]))
      (fun _ _ => (SuccessCode.GoingToInfinity, [4])) stA).1 = SuccessCode.GoingToInfinity ∧
    (TrackerIteration cfgA ratOps (fun _ _ _ => (SuccessCode.Success, [2]))
      (fun _ _ => (SuccessCode.GoingToInfinity, [4])) stA).2.next_stepsize = stA.next_stepsize ∧
    (TrackerIteration cfgA ratOps (fun _ _ _ => (SuccessCode.Success, [2]))
      (fun _ _ => (SuccessCode.GoingToInfinity, [4])) stA).2.current_stepsize = stA.current_stepsize ∧
    (TrackerIteration cfgA ratOps (fun _ _ _ => (SuccessCode.Success, [2]))
      (fun _ _ => (SuccessCode.GoingToInfinity, [4])) stA).2.current_space = stA.current_space :=
  trackerIteration_going_to_infinity_propagates cfgA ratOps _ _ stA rfl rfl

/-- Claim C3: on a predictor failure, or a corrector failure other than
`GoingToInfinity`, `TrackerIteration` sets the next step size to
`step_size_fail_factor * current_stepsize`, commits it as the current step
size, and returns the failing stage's code unchanged. -/
theorem trackerIteration_failure_shrinks_and_propagates {C R : Type} [LinearOrderedField R]
    (cfg : TrackerConfig R) (ops : NumericOps C R)
    (Pr : List C → C → C → SuccessCode × List C)
    (Co : List C → C → SuccessCode × List C)
    (st : TrackerState C R) :
    ((Pr st.current_space st.current_time st.delta_t).1 ≠ SuccessCode.Success →
      (TrackerIteration cfg ops Pr Co st).1 =
        (Pr st.current_space st.current_time st.delta_t).1 ∧
      (TrackerIteration cfg ops Pr Co st).2.next_stepsize =
        cfg.stepping.step_size_fail_factor * st.current_stepsize ∧
      (TrackerIteration cfg ops Pr Co st).2.current_stepsize =
        cfg.stepping.step_size_fail_factor * st.current_stepsize) ∧
    ((Pr st.current_space st.current_time st.delta_t).1 = SuccessCode.Success →
      (Co (Pr st.current_space st.current_time st.delta_t).2
        (ops.cadd st.current_time st.delta_t)).1 ≠ SuccessCode.Success →
      (Co (Pr st.current_space st.current_time st.delta_t).2
        (ops.cadd st.current_time st.delta_t)).1 ≠ SuccessCode.GoingToInfinity →
      (TrackerIteration cfg ops Pr Co st).1 =
        (Co (Pr st.current_space st.current_time st.delta_t).2
          (ops.cadd st.current_time st.delta_t)).1 ∧
      (TrackerIteration cfg ops Pr Co st).2.next_stepsize =
        cfg.stepping.step_size_fail_factor * st.current_stepsize ∧
      (TrackerIteration cfg ops Pr Co st).2.current_stepsize =
        cfg.stepping.step_size_fail_factor * st.current_stepsize) := by
  constructor
  · intro h
    simp [TrackerIteration, UpdateStepsize, SetStepSize, h]
  · intro hp hc hcg
    simp [TrackerIteration, UpdateStepsize, SetStepSize, hp, hc, hcg]

/-- Witness for claim C3: a concrete predictor matrix-solve failure shrinks
the committed step size by the fail factor and propagates the code. -/
theorem trackerIteration_failure_shrinks_and_propagates_witness :
    (TrackerIteration cfgA ratOps (fun _ _ _ => (SuccessCode.MatrixSolveFailure, [2]))
      (fun _ _ => (SuccessCode.Success, [3])) stA).1 = SuccessCode.MatrixSolveFailure ∧
    (TrackerIteration cfgA ratOps (fun _ _ _ => (SuccessCode.MatrixSolveFailure, [2]))
      (fun _ _ => (SuccessCode.Success, [3])) stA).2.next_stepsize =
      cfgA.stepping.step_size_fail_factor * stA.current_stepsize ∧
    (TrackerIteration cfgA ratOps (fun _ _ _ => (SuccessCode.MatrixSolveFailure, [2]))
      (fun _ _ => (SuccessCode.Success, [3])) stA).2.current_stepsize =
      cfgA.stepping.step_size_fail_factor * stA.current_stepsize :=
  (trackerIteration_failure_shrinks_and_propagates cfgA ratOps _ _ stA).1 (by decide)

/-- Claim C4 (counterexample): with the reinitialize-step-size policy
active, a positive initial step size (1), a positive fail factor (1/2) and
a positive current step size, initializing with `start_time = end_time = 0`
commits a current step size of `min(1, |0 - 0| / 1) = 0`, breaking the
claimed positivity invariant. -/
theorem trackerInitialization_zero_stepsize_at_equal_times :
    0 < cfgA.stepping.initial_step_size ∧
    0 < cfgA.stepping.step_size_fail_factor ∧
    0 < cfgA.stepping.min_num_steps ∧
    0 < stA.current_stepsize ∧
    (TrackerLoopInitialization cfgA ratOps stA 0 0 []).2.current_stepsize = 0 := by
  refine ⟨by norm_num [cfgA], by norm_num [cfgA], by norm_num [cfgA], by norm_num [stA], ?_⟩
  norm_num [TrackerLoopInitialization, ResetCounters, BaseResetCounters, SetStepSize,
    cfgA, ratOps]

/-- Claim C4 (amended): assuming a positive configured initial step size,
a positive fail factor, `min_num_steps ≥ 1`, positive current and next step
sizes in the starting state, and that every initialization performed while
the reinitialize-step-size policy is active has
`|start_time - end_time| > 0`, every state reachable by the tracker's
operations (`TrackerLoopInitialization`, `TrackerIteration`,
`UpdateStepsize`) keeps both step sizes positive. -/
theorem tracker_stepsize_positive_invariant {C R : Type} [LinearOrderedField R]
    (cfg : TrackerConfig R) (ops : NumericOps C R)
    (Pr : List C → C → C → SuccessCode × List C)
    (Co : List C → C → SuccessCode × List C)
    (s0 : TrackerState C R)
    (hinit : 0 < cfg.stepping.initial_step_size)
    (hfail : 0 < cfg.stepping.step_size_fail_factor)
    (hmin : 0 < cfg.stepping.min_num_steps)
    (h0c : 0 < s0.current_stepsize) (h0n : 0 < s0.next_stepsize)
    (s : TrackerState C R) (hr : Reachable cfg ops Pr Co s0 s) :
    0 < s.current_stepsize ∧ 0 < s.next_stepsize := by
  induction hr with
  | start => exact ⟨h0c, h0n⟩
  | initCall t t0 t1 pt ht habs ih =>
      by_cases hre : cfg.reinitialize_stepsize = true
      · refine ⟨?_, ?_⟩
        · simp [TrackerLoopInitialization, ResetCounters, BaseResetCounters, SetStepSize, hre]
          exact ⟨hinit, div_pos (habs hre) (by exact_mod_cast hmin)⟩
        · simp [TrackerLoopInitialization, ResetCounters, BaseResetCounters, SetStepSize, hre]
          exact ih.2
      · simp [TrackerLoopInitialization, ResetCounters, BaseResetCounters, SetStepSize, hre]
        exact ih
  | iterCall t ht ih =>
      simp only [TrackerIteration, UpdateStepsize, SetStepSize]
      split_ifs with h1 h2 h3
      · exact ⟨mul_pos hfail ih.1, mul_pos hfail ih.1⟩
      · exact ih
      · exact ⟨mul_pos hfail ih.1, mul_pos hfail ih.1⟩
      · exact ih
  | updateCall t ht ih =>
      exact ⟨ih.2, ih.2⟩

/-- Witness for the amended claim C4: the concrete starting state `stA`
under configuration `cfgA` is reachable and has positive step sizes. -/
theorem tracker_stepsize_positive_invariant_witness :
    0 < stA.current_stepsize ∧ 0 < stA.next_stepsize :=
  tracker_stepsize_positive_invariant cfgA ratOps
    (fun _ _ _ => (SuccessCode.Success, []))
    (fun _ _ => (SuccessCode.Success, [])) stA
    (by norm_num [cfgA]) (by norm_num [cfgA]) (by norm_num [cfgA])
    (by norm_num [stA]) (by norm_num [stA]) stA Reachable.start

/-- Claim C5: `PreIterationCheck` returns `MaxNumStepsTaken` as soon as the
successful-step count has reached `max_num_steps` (taking precedence over
the step-size check), else `MinStepSizeReached` when the current step size
is below `min_step_size`, else `Success`; it is a pure reader of the state. -/
theorem preIterationCheck_classification {C R : Type} [LinearOrderedField R]
    (cfg : TrackerConfig R) (st : TrackerState C R) :
    (cfg.stepping.max_num_steps ≤ st.num_successful_steps_taken →
      PreIterationCheck cfg st = SuccessCode.MaxNumStepsTaken) ∧
    (st.num_successful_steps_taken < cfg.stepping.max_num_steps →
      st.current_stepsize < cfg.stepping.min_step_size →
      PreIterationCheck cfg st = SuccessCode.MinStepSizeReached) ∧
    (st.num_successful_steps_taken < cfg.stepping.max_num_steps →
      ¬ st.current_stepsize < cfg.stepping.min_step_size →
      PreIterationCheck cfg st = SuccessCode.Success) := by
  refine ⟨fun h1 => ?_, fun h1 h2 => ?_, fun h1 h2 => ?_⟩
  · rw [PreIterationCheck, if_pos h1]
  · rw [PreIterationCheck, if_neg (not_le.mpr h1), if_pos h2]
  · rw [PreIterationCheck, if_neg (not_le.mpr h1), if_neg h2]

/-- Witness for claim C5: on the concrete state `stA` (3 successful steps
of at most 100, step size 1 above the minimum 1/1000) the check returns
`Success`. -/
theorem preIterationCheck_classification_witness :
    PreIterationCheck cfgA stA = SuccessCode.Success :=
  (preIterationCheck_classification cfgA stA).2.2
    (by norm_num [cfgA, stA]) (by norm_num [cfgA, stA])

/-- Claim C6: after the failed-iteration counter update, the success streak
`num_successful_steps_since_stepsize_increase` is zero regardless of its
prior value, while the total `num_successful_steps_taken` is unchanged. -/
theorem incrementCountersFail_resets_streak_keeps_total {C R : Type}
    (st : TrackerState C R) :
    (IncrementCountersFail st).num_successful_steps_since_stepsize_increase = 0 ∧
    (IncrementCountersFail st).num_successful_steps_taken = st.num_successful_steps_taken :=
  ⟨rfl, rfl⟩

/-- Claim C7 (code evaluation at the failing input): initializing with
`start_time = 1`, `end_time = 0`, `start_point = [1]` on a state whose
current space is empty sets `current_time` and returns `Success`, but
leaves `current_space` empty: `TrackerLoopInitialization` never copies the
start point, although its own documentation says it does. -/
theorem trackerLoopInitialization_ignores_start_point :
    (TrackerLoopInitialization cfgA ratOps stA 1 0 [1]).2.current_space = [] ∧
    (TrackerLoopInitialization cfgA ratOps stA 1 0 [1]).2.current_time = 1 ∧
    (TrackerLoopInitialization cfgA ratOps stA 1 0 [1]).1 = SuccessCode.Success :=
  ⟨rfl, rfl, rfl⟩

/-- Claim C8: for every initialization, if the reinitialize-step-size
policy is active the committed step size is
`min(initial_step_size, |start_time - end_time| / min_num_steps)`, and the
counters are reset to zero except the conditioning counter, which is set to
the estimation frequency. -/
theorem trackerLoopInitialization_stepsize_and_counter_reset {C R : Type}
    [LinearOrderedField R]
    (cfg : TrackerConfig R) (ops : NumericOps C R) (st : TrackerState C R)
    (t0 t1 : C) (pt : List C) :
    (cfg.reinitialize_stepsize = true →
      (TrackerLoopInitialization cfg ops st t0 t1 pt).2.current_stepsize =
        min cfg.stepping.initial_step_size
          (ops.cabs (ops.csub t0 t1) / (cfg.stepping.min_num_steps : R))) ∧
    (TrackerLoopInitialization cfg ops st t0 t1 pt).2.num_successful_steps_taken = 0 ∧
    (TrackerLoopInitialization cfg ops st t0 t1 pt).2.num_successful_steps_since_stepsize_increase = 0 ∧
    (TrackerLoopInitialization cfg ops st t0 t1 pt).2.num_failed_steps_taken = 0 ∧
    (TrackerLoopInitialization cfg ops st t0 t1 pt).2.num_steps_since_last_condition_number_computation =
      cfg.frequency_of_CN_estimation := by
  refine ⟨fun hre => ?_, rfl, rfl, rfl, rfl⟩
  simp [TrackerLoopInitialization, ResetCounters, BaseResetCounters, SetStepSize, hre]

/-- Witness for claim C8: a concrete initialization from time 1 to time 0
under the active policy commits `min(1, |1 - 0| / 1)` and zeroes the
successful-step count. -/
theorem trackerLoopInitialization_stepsize_and_counter_reset_witness :
    (TrackerLoopInitialization cfgA ratOps stA 1 0 []).2.current_stepsize =
      min cfgA.stepping.initial_step_size
        (ratOps.cabs (ratOps.csub 1 0) / (cfgA.stepping.min_num_steps : ℚ)) ∧
    (TrackerLoopInitialization cfgA ratOps stA 1 0 []).2.num_successful_steps_taken = 0 :=
  ⟨(trackerLoopInitialization_stepsize_and_counter_reset cfgA ratOps stA 1 0 []).1 rfl,
   (trackerLoopInitialization_stepsize_and_counter_reset cfgA ratOps stA 1 0 []).2.1⟩

/-- Claim C9 (code evaluation): for a division child with the nonzero
constant derivative 2, `MultOperator::Differentiate` produces the
quotient-rule term (the child inserted twice more as divide children plus
the derivative) added with a subtraction sign; but for a division child
whose derivative is the constant 1 the `continue` discards the term
entirely and the returned sum is empty, contrary to the claim. -/
theorem multOperator_differentiate_divide_branch_eval :
    Differentiate (Node.Mult [(Node.Leaf 1 (Node.Number 2), false)]) =
      Node.Sum [(Node.Mult [(Node.Leaf 1 (Node.Number 2), false),
                            (Node.Leaf 1 (Node.Number 2), false),
                            (Node.Number 2, true)], false)] ∧
    Differentiate (Node.Mult [(Node.Leaf 0 (Node.Number 1), false)]) = Node.Sum [] := by
  constructor <;> simp [Differentiate, MultOperatorTerms, Node.numberEq, List.eraseIdx]

/-- Claim C10 (code evaluation): in a two-child product whose first child
has the constant derivative 1 and whose second child has the constant
derivative 0, the returned sum has no terms at all (the unit-derivative
term is dropped by the `continue`), although with derivative 2 in place of
1 the same product yields exactly the one expected term. -/
theorem multOperator_differentiate_drops_unit_derivative_term :
    Differentiate (Node.Mult [(Node.Leaf 0 (Node.Number 1), true),
                              (Node.Leaf 1 (Node.Number 0), true)]) = Node.Sum [] ∧
    Differentiate (Node.Mult [(Node.Leaf 0 (Node.Number 2), true),
                              (Node.Leaf 1 (Node.Number 0), true)]) =
      Node.Sum [(Node.Mult [(Node.Leaf 1 (Node.Number 0), true),
                            (Node.Number 2, true)], true)] := by
  constructor <;> simp [Differentiate, MultOperatorTerms, Node.numberEq, List.eraseIdx]
